import Mathlib

/-!
Verification development for the EchoPaths repository: a shallow embedding of
`src/services/geminiService.ts` and the `StoryPlayer` component, together with
theorems settling the specification claims about them.

External calls (the hosted generative model, `JSON.parse`, base64 decoding and
audio decoding) are modelled as functions supplied by an environment record;
the embedded functions are pure and take that environment as a parameter.
JavaScript truthiness of optional strings (absent, or present but empty, both
count as falsy) is modelled by `truthyStr`.
-/

namespace EchoPaths

/-- JavaScript truthiness for an optional string: `undefined` and `""` are
falsy; any other string is kept. Used for `!text`, `!audioData` and
`mimeType || default` checks in the source. -/
def truthyStr : Option String → Option String
  | none => none
  | some s => if s = "" then none else some s

/-- JavaScript `String.prototype.trim`: drop leading and trailing
whitespace. -/
def jsTrim (s : String) : String :=
  String.mk (((s.data.dropWhile Char.isWhitespace).reverse.dropWhile
    Char.isWhitespace).reverse)

/-- JSON values, the possible results of `JSON.parse` in
`generateStoryOutline`. -/
inductive Json where
  | null : Json
  | bool (b : Bool) : Json
  | num (n : Int) : Json
  | str (s : String) : Json
  | arr (elems : List Json) : Json
  | obj (members : List (String × Json)) : Json
deriving Repr

/-- Modelled from the spec: the narrative styles of `types.ts` (not among the
provided sources). The five named styles appear in `getStyleInstruction`; the
default branch is modelled by `DEFAULT`. -/
inductive StoryStyle where
  | NOIR | CHILDREN | HISTORICAL | FANTASY | HISTORY_PODCAST | DEFAULT
deriving Repr, DecidableEq

/-- Modelled from the spec: the travel mode of a route ("start/end address,
travel mode, duration, narrative style"); the player distinguishes DRIVING
from walking. -/
inductive TravelMode where
  | WALKING | DRIVING
deriving Repr, DecidableEq

/-- Modelled from the spec: `RouteDetails` of `types.ts` (not among the
provided sources); fields are the ones the two provided files read. -/
structure RouteDetails where
  startAddress : String
  endAddress : String
  travelMode : TravelMode
  duration : String
  storyStyle : StoryStyle
deriving Repr, DecidableEq

/-- A citation returned with a segment: title plus URI. -/
structure StorySource where
  title : String
  uri : String
deriving Repr, DecidableEq

/-- Decoded audio, the result of `audioContext.decodeAudioData`; kept
abstract as a sequence of samples. -/
structure AudioBuffer where
  samples : List Int
deriving Repr, DecidableEq

/-- A story segment as built by `generateSegment`: ordinal index, narration
text, optional decoded audio, optional citation list. -/
structure StorySegment where
  index : Nat
  text : String
  audioBuffer : Option AudioBuffer
  sources : Option (List StorySource)
deriving Repr, DecidableEq

/-- Modelled from the spec: `AudioStory` of `types.ts` (not among the provided
sources): the ordered segments plus the estimated total segment count. -/
structure AudioStory where
  segments : List StorySegment
  totalSegmentsEstimate : Nat
deriving Repr, DecidableEq

/-- The `web` part of a grounding chunk of the model response. -/
structure WebInfo where
  uri : Option String
  title : Option String
deriving Repr, DecidableEq

/-- One grounding chunk of `candidates[0].groundingMetadata.groundingChunks`. -/
structure GroundingChunk where
  web : Option WebInfo
deriving Repr, DecidableEq

/-- The `inlineData` of the first part of a TTS response: base64 audio payload and
mime type. -/
structure InlineData where
  data : Option String
  mimeType : Option String
deriving Repr, DecidableEq

/-- The parts of a `generateContent` response that the service reads:
`response.text`, the grounding chunks of the first candidate, and the inline
data of the first part of the first candidate (each `Option` collapsing the
optional-chaining path in the source). -/
structure ModelResponse where
  text : Option String
  groundingChunks : Option (List GroundingChunk)
  firstPartInlineData : Option InlineData
deriving Repr, DecidableEq

/-- A text-generation request as built by `generateStoryOutline` and
`generateSegment`: the model name, whether the `googleSearch` tool is
attached, and the `responseMimeType` config entry. -/
structure GenRequest where
  model : String
  usesSearch : Bool
  responseMimeType : Option String
deriving Repr, DecidableEq

/-- A speech-synthesis request as built by `generateSegmentAudio`. -/
structure TTSRequest where
  model : String
  text : String
  responseModalityAudio : Bool
  voiceName : String
deriving Repr, DecidableEq

/-- Modelled from the spec: `pcmToWav` of `services/audioUtils` is not among
the provided sources; the spec says the sample-rate-tagged raw PCM payload is
wrapped into a playable audio container, so the container is modelled as the
PCM bytes paired with the sample rate. -/
structure WavFile where
  pcmData : List Nat
  sampleRate : Nat
deriving Repr, DecidableEq

/-- Modelled from the spec: wrapping a raw PCM payload into a WAV container
tagged with the given sample rate. -/
def pcmToWav (pcm : List Nat) (sampleRate : Nat) : WavFile :=
  { pcmData := pcm, sampleRate := sampleRate }

/-- The environment of external calls: the hosted model (text and TTS),
`JSON.parse`, `base64ToArrayBuffer` of `services/audioUtils` (not among the
provided sources), and `audioContext.decodeAudioData`. Fallible calls return
`Except String`, the error being the thrown value. -/
structure Env where
  generateContent : GenRequest → Except String ModelResponse
  generateTTS : TTSRequest → Except String ModelResponse
  parseJSON : String → Except String Json
  base64ToArrayBuffer : String → List Nat
  decodeAudioData : WavFile → AudioBuffer

/-- The request built by `generateStoryOutline`: pro model and search tool
exactly when the style is HISTORY_PODCAST, JSON response mime type. -/
def outlineRequest (route : RouteDetails) (totalSegments : Nat) : GenRequest :=
  let useSearch := route.storyStyle = StoryStyle.HISTORY_PODCAST
  { model := if useSearch then "gemini-3-pro-preview" else "gemini-3-flash-preview"
    usesSearch := useSearch
    responseMimeType := some "application/json" }

/-- The request built by `generateSegment`: pro model and search tool exactly
when the style is HISTORY_PODCAST, no response mime type config. -/
def segmentRequest (route : RouteDetails) : GenRequest :=
  let useSearch := route.storyStyle = StoryStyle.HISTORY_PODCAST
  { model := if useSearch then "gemini-3-pro-preview" else "gemini-3-flash-preview"
    usesSearch := useSearch
    responseMimeType := none }

/-- The request built by `generateSegmentAudio`. -/
def ttsRequest (text : String) (voiceName : String) : TTSRequest :=
  { model := "gemini-2.5-flash-preview-tts"
    text := text
    responseModalityAudio := true
    voiceName := voiceName }

/-- Placeholder string used by the catch-all fallback of
`generateStoryOutline`. -/
def outlineFallbackText : String := "Continue the immersive narrative of the journey."

/-- Placeholder string pushed while a short outline is padded up to
`totalSegments` entries. -/
def outlinePadText : String := "Continue the journey towards the destination."

/-- The `try` block of `generateStoryOutline`: call the model, trim and check
the text, parse it as JSON, require a non-empty array, then pad with
`outlinePadText` and truncate to exactly `totalSegments` entries. Any failure
is an `Except.error`, caught by `generateStoryOutline`. -/
def generateStoryOutlineTry (env : Env) (route : RouteDetails)
    (totalSegments : Nat) : Except String (List Json) :=
  match env.generateContent (outlineRequest route totalSegments) with
  | .error e => .error e
  | .ok response =>
    match truthyStr (response.text.map jsTrim) with
    | none => .error "No outline generated."
    | some text =>
      match env.parseJSON text with
      | .error e => .error e
      | .ok outline =>
        match outline with
        | .arr elems =>
          if elems.length = 0 then .error "Invalid outline format received."
          else .ok ((elems ++ List.replicate (totalSegments - elems.length)
                      (Json.str outlinePadText)).take totalSegments)
        | _ => .error "Invalid outline format received."

/-- Function `generateStoryOutline`: the `try` block with its catch-all handler, which
logs and returns `totalSegments` copies of the fallback placeholder. -/
def generateStoryOutline (env : Env) (route : RouteDetails)
    (totalSegments : Nat) : List Json :=
  match generateStoryOutlineTry env route totalSegments with
  | .ok outline => outline
  | .error _ => List.replicate totalSegments (Json.str outlineFallbackText)

/-- The citation a grounding chunk contributes: present exactly when
`chunk.web?.uri && chunk.web?.title` is truthy in the source. -/
def chunkSource (c : GroundingChunk) : Option StorySource :=
  match c.web with
  | none => none
  | some w =>
    match truthyStr w.uri, truthyStr w.title with
    | some u, some t => some { title := t, uri := u }
    | _, _ => none

/-- One step of the source-collection loop of `generateSegment`: push the
chunk citation unless one with the same URI was already collected. -/
def pushSource (acc : List StorySource) (c : GroundingChunk) : List StorySource :=
  match chunkSource c with
  | none => acc
  | some src => if acc.any (fun s => s.uri == src.uri) then acc else acc ++ [src]

/-- The `chunks.forEach` loop of `generateSegment`, collecting deduplicated
citations in order. -/
def extractSources (chunks : List GroundingChunk) : List StorySource :=
  chunks.foldl pushSource []

/-- Function `generateSegment`: call the model, require non-empty trimmed text,
collect deduplicated grounding sources, and return the segment with a null
audio buffer. The catch block rethrows, so failures stay `Except.error`. -/
def generateSegment (env : Env) (route : RouteDetails) (segmentIndex : Nat)
    (totalSegmentsEstimate : Nat) (segmentOutline : String)
    (previousContext : String := "") : Except String StorySegment :=
  match env.generateContent (segmentRequest route) with
  | .error e => .error e
  | .ok response =>
    match truthyStr (response.text.map jsTrim) with
    | none => .error "No text generated for segment."
    | some text =>
      let sources := extractSources (response.groundingChunks.getD [])
      .ok { index := segmentIndex
            text := text
            audioBuffer := none
            sources := if 0 < sources.length then some sources else none }

/-- Value of a non-empty digit run, as `parseInt(digits, 10)`. -/
def digitsVal (ds : List Char) : Nat :=
  ds.foldl (fun a c => a * 10 + (c.toNat - 48)) 0

/-- The match of `/rate=(\d+)/` anchored at the head of the character list:
the literal `rate=` followed by at least one digit. -/
def rateAt (l : List Char) : Option Nat :=
  match l with
  | 'r' :: 'a' :: 't' :: 'e' :: '=' :: rest =>
    match rest.takeWhile Char.isDigit with
    | [] => none
    | ds => some (digitsVal ds)
  | _ => none

/-- First match of `/rate=(\d+)/` scanning left to right. -/
def findRateList : List Char → Option Nat
  | [] => none
  | c :: cs =>
    match rateAt (c :: cs) with
    | some n => some n
    | none => findRateList cs

/-- Model of `mimeType.match(/rate=(\d+)/)` followed by `parseInt` on the captured
digits. -/
def findRate (s : String) : Option Nat := findRateList s.data

/-- The sample rate `generateSegmentAudio` passes to `pcmToWav`, from the
optionally-chained mime type: a falsy mime type is replaced by
`audio/pcm;rate=24000`, and a missing `rate=` match falls back to 24000. -/
def resolveSampleRate (mimeType : Option String) : Nat :=
  (findRate ((truthyStr mimeType).getD "audio/pcm;rate=24000")).getD 24000

/-- Function `generateSegmentAudio`: call the TTS model, require inline audio data,
resolve the sample rate from the mime type, wrap the base64-decoded PCM into
a WAV container and decode it. The catch block rethrows, so failures stay
`Except.error`. -/
def generateSegmentAudio (env : Env) (text : String)
    (voiceName : String := "Kore") : Except String AudioBuffer :=
  match env.generateTTS (ttsRequest text voiceName) with
  | .error e => .error e
  | .ok response =>
    match truthyStr (response.firstPartInlineData.bind InlineData.data) with
    | none => .error "No audio data received from Gemini TTS."
    | some audioData =>
      let sampleRate :=
        resolveSampleRate (response.firstPartInlineData.bind InlineData.mimeType)
      .ok (env.decodeAudioData (pcmToWav (env.base64ToArrayBuffer audioData) sampleRate))

/-- An audio source created by `playSegment`: its identity, the buffer it
plays and the offset it was started at (`source.start(0, offset)`). -/
structure ActiveSource where
  id : Nat
  buffer : AudioBuffer
  offset : Int
deriving Repr, DecidableEq

/-- The state of the `StoryPlayer` component: the four `useState` values, the
refs, an abstract audio clock, and the audio system as the set of sources
that have been started and not stopped (`playing`) with a supply of fresh
source ids. -/
structure PlayerState where
  isPlaying : Bool
  currentSegmentIndex : Nat
  isBuffering : Bool
  autoScroll : Bool
  audioCtxCreated : Bool
  currentTime : Int
  sourceRef : Option ActiveSource
  startTime : Int
  segmentOffset : Int
  playing : List Nat
  nextId : Nat
deriving Repr, DecidableEq

/-- Handler `stopAudio`: if a source is held, detach it, stop it (removing it from
the playing set) and clear the ref. -/
def stopAudio (s : PlayerState) : PlayerState :=
  match s.sourceRef with
  | none => s
  | some src =>
    { s with playing := s.playing.filter (fun i => i ≠ src.id), sourceRef := none }

/-- Handler `playSegment`: with no buffer on the (possibly missing) segment, only set
the buffering flag; otherwise ensure the audio context exists, stop the
previous source, then create, register and start a fresh source at the given
offset, recording the start time. -/
def playSegment (segment : Option StorySegment) (offset : Int)
    (s : PlayerState) : PlayerState :=
  match segment.bind StorySegment.audioBuffer with
  | none => { s with isBuffering := true }
  | some buf =>
    let s1 := stopAudio { s with audioCtxCreated := true }
    let src : ActiveSource := { id := s1.nextId, buffer := buf, offset := offset }
    { s1 with sourceRef := some src
              playing := s1.playing ++ [src.id]
              nextId := s1.nextId + 1
              startTime := s1.currentTime - offset }

/-- Handler `handleSegmentEnd`: advance the index by one, reset the segment offset,
then play the next segment if its buffer is ready; otherwise stop playing
when past the estimate with background generation finished, else buffer. -/
def handleSegmentEnd (story : AudioStory) (isBackgroundGenerating : Bool)
    (s : PlayerState) : PlayerState :=
  let nextIndex := s.currentSegmentIndex + 1
  let s1 := { s with currentSegmentIndex := nextIndex, segmentOffset := 0 }
  match (story.segments[nextIndex]?).bind StorySegment.audioBuffer with
  | some _ => playSegment story.segments[nextIndex]? 0 s1
  | none =>
    if nextIndex ≥ story.totalSegmentsEstimate ∧ isBackgroundGenerating = false then
      { s1 with isPlaying := false }
    else
      { s1 with isBuffering := true }

/-- Handler `togglePlayback`: when playing, record the pause offset (only with a live
context and not buffering), stop the source and clear the playing and
autoscroll flags; when paused, mark playing and either resume the current
segment at the stored offset (buffer ready) or set the buffering flag. -/
def togglePlayback (story : AudioStory) (s : PlayerState) : PlayerState :=
  if s.isPlaying then
    let s1 :=
      if s.audioCtxCreated ∧ s.isBuffering = false then
        { s with segmentOffset := s.currentTime - s.startTime }
      else s
    let s2 := stopAudio s1
    { s2 with isPlaying := false, autoScroll := false }
  else
    let s1 := { s with isPlaying := true }
    let cur := story.segments[s.currentSegmentIndex]?
    match cur.bind StorySegment.audioBuffer with
    | some _ =>
      let s2 := playSegment cur s1.segmentOffset { s1 with isBuffering := false }
      { s2 with autoScroll := true }
    | none => { s1 with isBuffering := true }

/-- The buffer-ready `useEffect`: when buffering while playing and the
current segment now has a buffer, clear the buffering flag and start that
segment from offset 0. -/
def bufferReadyEffect (story : AudioStory) (s : PlayerState) : PlayerState :=
  let segmentNowReady := story.segments[s.currentSegmentIndex]?
  if s.isBuffering = true ∧ s.isPlaying = true ∧
      (segmentNowReady.bind StorySegment.audioBuffer).isSome then
    playSegment segmentNowReady 0 { s with isBuffering := false }
  else s

/-- The single-source discipline of the player: the started-and-unstopped
sources are at most the one held in `sourceRef`. -/
def sourceInv (s : PlayerState) : Prop :=
  s.playing = [] ∨ ∃ src, s.sourceRef = some src ∧ s.playing = [src.id]

/-- The failure mode of outline generation named by the spec: the model call
throws, or returns no text (absent or blank), or the parsed reply is not a
non-empty JSON array. -/
def outlineCallFailure (env : Env) (route : RouteDetails) (totalSegments : Nat) : Prop :=
  match env.generateContent (outlineRequest route totalSegments) with
  | .error _ => True
  | .ok response =>
    match truthyStr (response.text.map jsTrim) with
    | none => True
    | some text =>
      match env.parseJSON text with
      | .error _ => False
      | .ok outline => ¬ ∃ elems, outline = Json.arr elems ∧ elems ≠ []

/-! Concrete sample data used by the witness theorems. -/

def sampleRoute : RouteDetails :=
  { startAddress := "A", endAddress := "B", travelMode := TravelMode.WALKING
    duration := "10 mins", storyStyle := StoryStyle.DEFAULT }

def podcastRoute : RouteDetails :=
  { sampleRoute with storyStyle := StoryStyle.HISTORY_PODCAST }

def sampleBuffer : AudioBuffer := { samples := [1, 2] }

def failEnv : Env :=
  { generateContent := fun _ => .error "network"
    generateTTS := fun _ => .error "network"
    parseJSON := fun _ => .error "bad input"
    base64ToArrayBuffer := fun _ => []
    decodeAudioData := fun _ => { samples := [] } }

def ttsResp : ModelResponse :=
  { text := none
    groundingChunks := none
    firstPartInlineData := some { data := some "QUJD", mimeType := some "audio/L16;rate=16000" } }

def ttsEnv : Env := { failEnv with generateTTS := fun _ => .ok ttsResp }

def c7chunks : List GroundingChunk :=
  [ { web := some { uri := some "u1", title := some "t1" } }
  , { web := some { uri := some "u1", title := some "t2" } }
  , { web := some { uri := some "u2", title := some "t3" } }
  , { web := none } ]

def c7resp : ModelResponse :=
  { text := some "T", groundingChunks := some c7chunks, firstPartInlineData := none }

def c7env : Env := { failEnv with generateContent := fun _ => .ok c7resp }

def c7sources : List StorySource :=
  [{ title := "t1", uri := "u1" }, { title := "t3", uri := "u2" }]

def c7seg : StorySegment :=
  { index := 1, text := "T", audioBuffer := none, sources := some c7sources }

def readySegment : StorySegment :=
  { index := 1, text := "hello", audioBuffer := some sampleBuffer, sources := none }

def readySegment2 : StorySegment :=
  { index := 2, text := "world", audioBuffer := some sampleBuffer, sources := none }

def sampleStory : AudioStory :=
  { segments := [readySegment], totalSegmentsEstimate := 1 }

def twoSegmentStory : AudioStory :=
  { segments := [readySegment, readySegment2], totalSegmentsEstimate := 2 }

def emptyStory : AudioStory := { segments := [], totalSegmentsEstimate := 1 }

def bufferingState : PlayerState :=
  { isPlaying := true, currentSegmentIndex := 0, isBuffering := true, autoScroll := true
    audioCtxCreated := false, currentTime := 0, sourceRef := none, startTime := 0
    segmentOffset := 0, playing := [], nextId := 0 }

def pausedState : PlayerState :=
  { bufferingState with isPlaying := false, isBuffering := false }

/-- C1: whenever outline generation fails (the model call throws, the
response has no usable text, or the parsed reply is not a non-empty array),
`generateStoryOutline` does not propagate the failure: it returns
`totalSegments` copies of the fallback placeholder string. -/
theorem generateStoryOutline_fallback (env : Env) (route : RouteDetails)
    (totalSegments : Nat) (h : outlineCallFailure env route totalSegments) :
    generateStoryOutline env route totalSegments =
      List.replicate totalSegments (Json.str outlineFallbackText) := by
  unfold outlineCallFailure at h
  unfold generateStoryOutline generateStoryOutlineTry
  cases hg : env.generateContent (outlineRequest route totalSegments) with
  | error e => simp
  | ok response =>
    simp only [hg] at h
    cases ht : truthyStr (response.text.map jsTrim) with
    | none => simp [ht]
    | some text =>
      simp only [ht] at h
      simp only [ht]
      cases hp : env.parseJSON text with
      | error e => simp [hp]
      | ok outline =>
        simp only [hp] at h
        simp only [hp]
        cases outline with
        | arr elems =>
          have helems : elems = [] := by
            by_contra hne
            exact h ⟨elems, rfl, hne⟩
          subst helems
          simp
        | null => simp
        | bool b => simp
        | num m => simp
        | str s => simp
        | obj mem => simp

/-- Witness for C1: with an environment whose model call throws, the outline
is three fallback placeholders. -/
theorem generateStoryOutline_fallback_witness :
    generateStoryOutline failEnv sampleRoute 3 =
      List.replicate 3 (Json.str outlineFallbackText) :=
  generateStoryOutline_fallback failEnv sampleRoute 3 trivial

/-- C9: for `totalSegments ≥ 1` the outline returned by
`generateStoryOutline` has length exactly `totalSegments`, on the success
path (padding or truncating the parsed array) as well as the failure path. -/
theorem generateStoryOutline_length (env : Env) (route : RouteDetails)
    (totalSegments : Nat) (h : 1 ≤ totalSegments) :
    (generateStoryOutline env route totalSegments).length = totalSegments := by
  clear h
  unfold generateStoryOutline generateStoryOutlineTry
  cases hg : env.generateContent (outlineRequest route totalSegments) with
  | error e => simp
  | ok response =>
    cases ht : truthyStr (response.text.map jsTrim) with
    | none => simp [ht]
    | some text =>
      simp only [ht]
      cases hp : env.parseJSON text with
      | error e => simp [hp]
      | ok outline =>
        simp only [hp]
        cases outline with
        | arr elems =>
          by_cases he : elems.length = 0
          · simp [he]
          · simp only [he, if_false]
            simp [List.length_take, List.length_append, List.length_replicate]
            omega
        | null => simp
        | bool b => simp
        | num m => simp
        | str s => simp
        | obj mem => simp

/-- Witness for C9: a concrete failing environment yields an outline of the
requested length. -/
theorem generateStoryOutline_length_witness :
    (generateStoryOutline failEnv sampleRoute 4).length = 4 :=
  generateStoryOutline_length failEnv sampleRoute 4 (by decide)

/-- C10: in the requests built by both `generateStoryOutline` and
`generateSegment`, the web-search tool is attached, and the
`gemini-3-pro-preview` model selected, exactly when the route style is
HISTORY_PODCAST; otherwise the model is `gemini-3-flash-preview`. -/
theorem requests_search_and_model (route : RouteDetails) (totalSegments : Nat) :
    ((outlineRequest route totalSegments).usesSearch = true ↔
        route.storyStyle = StoryStyle.HISTORY_PODCAST) ∧
    ((outlineRequest route totalSegments).model = "gemini-3-pro-preview" ↔
        route.storyStyle = StoryStyle.HISTORY_PODCAST) ∧
    (route.storyStyle ≠ StoryStyle.HISTORY_PODCAST →
        (outlineRequest route totalSegments).model = "gemini-3-flash-preview") ∧
    ((segmentRequest route).usesSearch = true ↔
        route.storyStyle = StoryStyle.HISTORY_PODCAST) ∧
    ((segmentRequest route).model = "gemini-3-pro-preview" ↔
        route.storyStyle = StoryStyle.HISTORY_PODCAST) ∧
    (route.storyStyle ≠ StoryStyle.HISTORY_PODCAST →
        (segmentRequest route).model = "gemini-3-flash-preview") := by
  by_cases hp : route.storyStyle = StoryStyle.HISTORY_PODCAST <;>
    simp [outlineRequest, segmentRequest, hp]

/-- Witness for C10: the podcast route requests search with the pro model;
the default route gets the flash model. -/
theorem requests_search_and_model_witness :
    (outlineRequest podcastRoute 3).usesSearch = true ∧
    (outlineRequest podcastRoute 3).model = "gemini-3-pro-preview" ∧
    (segmentRequest sampleRoute).model = "gemini-3-flash-preview" :=
  ⟨(requests_search_and_model podcastRoute 3).1.mpr rfl,
   (requests_search_and_model podcastRoute 3).2.1.mpr rfl,
   (requests_search_and_model sampleRoute 3).2.2.2.2.2 (by decide)⟩

/-- C2: `generateSegment` and `generateSegmentAudio` propagate failures:
each returns an error exactly when the underlying model call throws or
yields no usable text (respectively no inline audio data); on those failures
no fallback value is produced (the result is an error, not a value). -/
theorem generate_errors_iff (env : Env) (route : RouteDetails)
    (segmentIndex totalSegmentsEstimate : Nat) (segmentOutline ctx text voice : String) :
    ((∃ e, generateSegment env route segmentIndex totalSegmentsEstimate segmentOutline ctx
        = .error e) ↔
      ((∃ e, env.generateContent (segmentRequest route) = .error e) ∨
       (∃ resp, env.generateContent (segmentRequest route) = .ok resp ∧
          truthyStr (resp.text.map jsTrim) = none))) ∧
    ((∃ e, generateSegmentAudio env text voice = .error e) ↔
      ((∃ e, env.generateTTS (ttsRequest text voice) = .error e) ∨
       (∃ resp, env.generateTTS (ttsRequest text voice) = .ok resp ∧
          truthyStr (resp.firstPartInlineData.bind InlineData.data) = none))) := by
  constructor
  · unfold generateSegment
    cases hg : env.generateContent (segmentRequest route) with
    | error e => simp [hg]
    | ok response =>
      cases ht : truthyStr (response.text.map jsTrim) with
      | none => simp [hg, ht]
      | some t => simp [hg, ht]
  · unfold generateSegmentAudio
    cases hg : env.generateTTS (ttsRequest text voice) with
    | error e => simp [hg]
    | ok response =>
      cases ht : truthyStr (response.firstPartInlineData.bind InlineData.data) with
      | none => simp [hg, ht]
      | some d => simp [hg, ht]

/-- C8: when the TTS call succeeds with truthy inline audio data,
`generateSegmentAudio` decodes the WAV container wrapping the base64-decoded
PCM at the sample rate resolved from the mime type; the resolution parses
the `rate=` parameter and falls back to 24000 when the mime type is absent
or carries no such parameter. -/
theorem generateSegmentAudio_wav (env : Env) (text voice : String)
    (resp : ModelResponse) (d : String)
    (hc : env.generateTTS (ttsRequest text voice) = .ok resp)
    (hd : truthyStr (resp.firstPartInlineData.bind InlineData.data) = some d) :
    generateSegmentAudio env text voice =
      .ok (env.decodeAudioData (pcmToWav (env.base64ToArrayBuffer d)
        (resolveSampleRate (resp.firstPartInlineData.bind InlineData.mimeType)))) ∧
    resolveSampleRate none = 24000 ∧
    (∀ m, findRate m = none → resolveSampleRate (some m) = 24000) ∧
    (∀ m r, m ≠ "" → findRate m = some r → resolveSampleRate (some m) = r) := by
  refine ⟨?_, ?_, ?_, ?_⟩
  · unfold generateSegmentAudio
    simp [hc, hd]
  · decide
  · intro m hm
    unfold resolveSampleRate truthyStr
    by_cases he : m = ""
    · subst he
      decide
    · simp [he, hm]
  · intro m r hne hr
    unfold resolveSampleRate truthyStr
    simp [hne, hr]

/-- Witness for C8: a concrete TTS response tagged `rate=16000` is wrapped
at sample rate 16000. -/
theorem generateSegmentAudio_wav_witness :
    generateSegmentAudio ttsEnv "hello" "Kore" =
      .ok (ttsEnv.decodeAudioData (pcmToWav (ttsEnv.base64ToArrayBuffer "QUJD") 16000)) := by
  have h := (generateSegmentAudio_wav ttsEnv "hello" "Kore" ttsResp "QUJD" rfl rfl).1
  simpa using h

/-! Field-preservation lemmas for the player operations. -/

@[simp]
theorem stopAudio_sourceRef (s : PlayerState) : (stopAudio s).sourceRef = none := by
  unfold stopAudio
  cases h : s.sourceRef <;> simp [h]

@[simp]
theorem stopAudio_isBuffering (s : PlayerState) :
    (stopAudio s).isBuffering = s.isBuffering := by
  unfold stopAudio
  cases s.sourceRef <;> rfl

@[simp]
theorem stopAudio_isPlaying (s : PlayerState) :
    (stopAudio s).isPlaying = s.isPlaying := by
  unfold stopAudio
  cases s.sourceRef <;> rfl

@[simp]
theorem stopAudio_currentSegmentIndex (s : PlayerState) :
    (stopAudio s).currentSegmentIndex = s.currentSegmentIndex := by
  unfold stopAudio
  cases s.sourceRef <;> rfl

@[simp]
theorem stopAudio_nextId (s : PlayerState) : (stopAudio s).nextId = s.nextId := by
  unfold stopAudio
  cases s.sourceRef <;> rfl

@[simp]
theorem stopAudio_currentTime (s : PlayerState) :
    (stopAudio s).currentTime = s.currentTime := by
  unfold stopAudio
  cases s.sourceRef <;> rfl

@[simp]
theorem stopAudio_segmentOffset (s : PlayerState) :
    (stopAudio s).segmentOffset = s.segmentOffset := by
  unfold stopAudio
  cases s.sourceRef <;> rfl

theorem stopAudio_playing_of_inv (s : PlayerState) (h : sourceInv s) :
    (stopAudio s).playing = [] := by
  unfold stopAudio
  cases hs : s.sourceRef with
  | none =>
    rcases h with h | ⟨src, hsrc, _⟩
    · simpa using h
    · rw [hs] at hsrc
      exact absurd hsrc (by simp)
  | some src =>
    rcases h with h | ⟨src', hsrc, hpl⟩
    · simp [h]
    · rw [hs] at hsrc
      cases hsrc
      simp [hpl]

theorem playSegment_currentSegmentIndex (segment : Option StorySegment)
    (offset : Int) (s : PlayerState) :
    (playSegment segment offset s).currentSegmentIndex = s.currentSegmentIndex := by
  unfold playSegment
  cases h : segment.bind StorySegment.audioBuffer <;> simp [h]

/-- When the segment's buffer is ready, `playSegment` registers and starts
exactly one fresh source holding that buffer at the requested offset. -/
theorem playSegment_starts (segment : Option StorySegment) (offset : Int)
    (s : PlayerState) (buf : AudioBuffer)
    (hb : segment.bind StorySegment.audioBuffer = some buf) :
    ∃ src, (playSegment segment offset s).sourceRef = some src ∧
      src.buffer = buf ∧ src.offset = offset ∧
      src.id ∈ (playSegment segment offset s).playing ∧
      (playSegment segment offset s).isBuffering = s.isBuffering := by
  unfold playSegment
  simp only [hb]
  exact ⟨_, rfl, rfl, rfl, by simp, by simp⟩

/-- C3: a segment returned by `generateSegment` always carries a null audio
buffer; and when the player is buffering while playing and the current
segment's buffer becomes available, the buffer-ready effect clears the
buffering flag and starts a source playing that buffer from offset 0. -/
theorem segment_starts_unbuffered_and_player_resumes :
    (∀ (env : Env) (route : RouteDetails) (i n : Nat) (outline ctx : String)
        (seg : StorySegment),
      generateSegment env route i n outline ctx = .ok seg → seg.audioBuffer = none) ∧
    (∀ (story : AudioStory) (s : PlayerState) (buf : AudioBuffer),
      s.isBuffering = true → s.isPlaying = true →
      (story.segments[s.currentSegmentIndex]?).bind StorySegment.audioBuffer = some buf →
      (bufferReadyEffect story s).isBuffering = false ∧
      ∃ src, (bufferReadyEffect story s).sourceRef = some src ∧
        src.buffer = buf ∧ src.offset = 0 ∧
        src.id ∈ (bufferReadyEffect story s).playing) := by
  constructor
  · intro env route i n outline ctx seg hs
    unfold generateSegment at hs
    cases hg : env.generateContent (segmentRequest route) with
    | error e => simp [hg] at hs
    | ok response =>
      simp only [hg] at hs
      cases ht : truthyStr (response.text.map jsTrim) with
      | none => simp [ht] at hs
      | some t =>
        simp only [ht, Except.ok.injEq] at hs
        rw [← hs]
  · intro story s buf h1 h2 h3
    have hcond : s.isBuffering = true ∧ s.isPlaying = true ∧
        ((story.segments[s.currentSegmentIndex]?).bind StorySegment.audioBuffer).isSome :=
      ⟨h1, h2, by simp [h3]⟩
    have heq : bufferReadyEffect story s =
        playSegment story.segments[s.currentSegmentIndex]? 0 { s with isBuffering := false } := by
      unfold bufferReadyEffect
      rw [if_pos hcond]
    obtain ⟨src, hsrc, hbuf, hoff, hmem, hkeep⟩ :=
      playSegment_starts story.segments[s.currentSegmentIndex]? 0
        { s with isBuffering := false } buf h3
    rw [heq]
    exact ⟨by rw [hkeep], src, hsrc, hbuf, hoff, hmem⟩

/-- Witness for C3: a concretely generated segment has no buffer, and a
concrete buffering-while-playing state resumes once the buffer is there. -/
theorem segment_starts_unbuffered_and_player_resumes_witness :
    c7seg.audioBuffer = none ∧
    (bufferReadyEffect sampleStory bufferingState).isBuffering = false :=
  ⟨segment_starts_unbuffered_and_player_resumes.1 c7env sampleRoute 1 3 "go" "" c7seg rfl,
   (segment_starts_unbuffered_and_player_resumes.2 sampleStory bufferingState
      sampleBuffer rfl rfl rfl).1⟩

/-- C4: `handleSegmentEnd` advances the index by exactly one; it starts the
next segment at offset 0 when its buffer is present; with no buffer it stops
playing exactly when the next index reaches the estimate with background
generation finished, and sets the buffering flag in every other case. -/
theorem handleSegmentEnd_spec (story : AudioStory) (bg : Bool) (s : PlayerState) :
    (handleSegmentEnd story bg s).currentSegmentIndex = s.currentSegmentIndex + 1 ∧
    (∀ buf,
      (story.segments[s.currentSegmentIndex + 1]?).bind StorySegment.audioBuffer = some buf →
      ∃ src, (handleSegmentEnd story bg s).sourceRef = some src ∧
        src.buffer = buf ∧ src.offset = 0 ∧
        src.id ∈ (handleSegmentEnd story bg s).playing) ∧
    ((story.segments[s.currentSegmentIndex + 1]?).bind StorySegment.audioBuffer = none →
      ((s.currentSegmentIndex + 1 ≥ story.totalSegmentsEstimate ∧ bg = false) →
        (handleSegmentEnd story bg s).isPlaying = false) ∧
      (¬ (s.currentSegmentIndex + 1 ≥ story.totalSegmentsEstimate ∧ bg = false) →
        (handleSegmentEnd story bg s).isBuffering = true)) := by
  cases hb : (story.segments[s.currentSegmentIndex + 1]?).bind StorySegment.audioBuffer with
  | some buf =>
    have heq : handleSegmentEnd story bg s =
        playSegment story.segments[s.currentSegmentIndex + 1]? 0
          { s with currentSegmentIndex := s.currentSegmentIndex + 1, segmentOffset := 0 } := by
      simp only [handleSegmentEnd]
      rw [hb]
    refine ⟨?_, ?_, ?_⟩
    · rw [heq, playSegment_currentSegmentIndex]
    · intro buf' hb'
      cases hb'
      rw [heq]
      obtain ⟨src, hsrc, hbuf, hoff, hmem, _⟩ :=
        playSegment_starts story.segments[s.currentSegmentIndex + 1]? 0
          { s with currentSegmentIndex := s.currentSegmentIndex + 1, segmentOffset := 0 } buf hb
      exact ⟨src, hsrc, hbuf, hoff, hmem⟩
    · intro hnone
      cases hnone
  | none =>
    by_cases hc : s.currentSegmentIndex + 1 ≥ story.totalSegmentsEstimate ∧ bg = false
    · have heq : handleSegmentEnd story bg s =
          { s with currentSegmentIndex := s.currentSegmentIndex + 1, segmentOffset := 0,
                   isPlaying := false } := by
        simp only [handleSegmentEnd]
        rw [hb, if_pos hc]
      refine ⟨by rw [heq], ?_, ?_⟩
      · intro buf hb'
        cases hb'
      · intro _
        exact ⟨fun _ => by rw [heq], fun hn => absurd hc hn⟩
    · have heq : handleSegmentEnd story bg s =
          { s with currentSegmentIndex := s.currentSegmentIndex + 1, segmentOffset := 0,
                   isBuffering := true } := by
        simp only [handleSegmentEnd]
        rw [hb, if_neg hc]
      refine ⟨by rw [heq], ?_, ?_⟩
      · intro buf hb'
        cases hb'
      · intro _
        exact ⟨fun hp => absurd hp hc, fun _ => by rw [heq]⟩

/-- Witness for C4: after a segment ends the index is one higher; at the end
of an exhausted story with background generation finished, playback stops. -/
theorem handleSegmentEnd_spec_witness :
    (handleSegmentEnd twoSegmentStory false bufferingState).currentSegmentIndex =
      bufferingState.currentSegmentIndex + 1 ∧
    (handleSegmentEnd emptyStory false bufferingState).isPlaying = false :=
  ⟨(handleSegmentEnd_spec twoSegmentStory false bufferingState).1,
   ((handleSegmentEnd_spec emptyStory false bufferingState).2.2 rfl).1
     ⟨by decide, rfl⟩⟩

/-- C5: toggling playback from a paused state whose current segment has no
ready buffer marks the player as playing and buffering, and neither starts
a source nor touches the existing one. -/
theorem togglePlayback_paused_no_buffer (story : AudioStory) (s : PlayerState)
    (hp : s.isPlaying = false)
    (hb : (story.segments[s.currentSegmentIndex]?).bind StorySegment.audioBuffer = none) :
    (togglePlayback story s).isPlaying = true ∧
    (togglePlayback story s).isBuffering = true ∧
    (togglePlayback story s).sourceRef = s.sourceRef ∧
    (togglePlayback story s).playing = s.playing ∧
    (togglePlayback story s).nextId = s.nextId := by
  unfold togglePlayback
  rw [hp]
  simp [hb]

/-- Witness for C5: a concrete paused state over an empty story buffers
without starting anything. -/
theorem togglePlayback_paused_no_buffer_witness :
    (togglePlayback emptyStory pausedState).isPlaying = true ∧
    (togglePlayback emptyStory pausedState).isBuffering = true :=
  ⟨(togglePlayback_paused_no_buffer emptyStory pausedState rfl rfl).1,
   (togglePlayback_paused_no_buffer emptyStory pausedState rfl rfl).2.1⟩

/-! Preservation of the single-source invariant. -/

theorem sourceInv_of_eq (s t : PlayerState) (h1 : t.sourceRef = s.sourceRef)
    (h2 : t.playing = s.playing) (h : sourceInv s) : sourceInv t := by
  unfold sourceInv at *
  rw [h1, h2]
  exact h

theorem sourceInv_stopAudio (s : PlayerState) (h : sourceInv s) :
    sourceInv (stopAudio s) :=
  Or.inl (stopAudio_playing_of_inv s h)

theorem sourceInv_playSegment (segment : Option StorySegment) (offset : Int)
    (s : PlayerState) (h : sourceInv s) : sourceInv (playSegment segment offset s) := by
  cases hb : segment.bind StorySegment.audioBuffer with
  | none =>
    have heq : playSegment segment offset s = { s with isBuffering := true } := by
      simp only [playSegment, hb]
    rw [heq]
    exact sourceInv_of_eq s _ rfl rfl h
  | some buf =>
    have h' : sourceInv { s with audioCtxCreated := true } :=
      sourceInv_of_eq s _ rfl rfl h
    have hpl : (stopAudio { s with audioCtxCreated := true }).playing = [] :=
      stopAudio_playing_of_inv _ h'
    have hsrc : (playSegment segment offset s).sourceRef =
        some { id := (stopAudio { s with audioCtxCreated := true }).nextId,
               buffer := buf, offset := offset } := by
      simp only [playSegment, hb]
    have hply : (playSegment segment offset s).playing =
        (stopAudio { s with audioCtxCreated := true }).playing ++
          [(stopAudio { s with audioCtxCreated := true }).nextId] := by
      simp only [playSegment, hb]
    right
    refine ⟨_, hsrc, ?_⟩
    rw [hply, hpl]
    rfl

theorem sourceInv_handleSegmentEnd (story : AudioStory) (bg : Bool)
    (s : PlayerState) (h : sourceInv s) : sourceInv (handleSegmentEnd story bg s) := by
  simp only [handleSegmentEnd]
  cases hb : (story.segments[s.currentSegmentIndex + 1]?).bind StorySegment.audioBuffer with
  | some buf =>
    exact sourceInv_playSegment _ 0 _ (sourceInv_of_eq s _ rfl rfl h)
  | none =>
    by_cases hc : s.currentSegmentIndex + 1 ≥ story.totalSegmentsEstimate ∧ bg = false
    · rw [if_pos hc]
      exact sourceInv_of_eq s _ rfl rfl h
    · rw [if_neg hc]
      exact sourceInv_of_eq s _ rfl rfl h

theorem sourceInv_togglePlayback (story : AudioStory) (s : PlayerState)
    (h : sourceInv s) : sourceInv (togglePlayback story s) := by
  by_cases hp : s.isPlaying
  · by_cases hc : s.audioCtxCreated ∧ s.isBuffering = false
    · have heq : togglePlayback story s =
          { stopAudio { s with segmentOffset := s.currentTime - s.startTime } with
            isPlaying := false, autoScroll := false } := by
        simp only [togglePlayback, if_pos hp, if_pos hc]
      rw [heq]
      exact sourceInv_of_eq
        (stopAudio { s with segmentOffset := s.currentTime - s.startTime }) _ rfl rfl
        (sourceInv_stopAudio _ (sourceInv_of_eq s _ rfl rfl h))
    · have heq : togglePlayback story s =
          { stopAudio s with isPlaying := false, autoScroll := false } := by
        simp only [togglePlayback, if_pos hp, if_neg hc]
      rw [heq]
      exact sourceInv_of_eq (stopAudio s) _ rfl rfl (sourceInv_stopAudio s h)
  · cases hb : (story.segments[s.currentSegmentIndex]?).bind StorySegment.audioBuffer with
    | some buf =>
      have heq : togglePlayback story s =
          { playSegment story.segments[s.currentSegmentIndex]? s.segmentOffset
              { s with isPlaying := true, isBuffering := false } with
            autoScroll := true } := by
        simp only [togglePlayback, if_neg hp, hb]
      rw [heq]
      exact sourceInv_of_eq
        (playSegment story.segments[s.currentSegmentIndex]? s.segmentOffset
          { s with isPlaying := true, isBuffering := false }) _ rfl rfl
        (sourceInv_playSegment _ _ _ (sourceInv_of_eq s _ rfl rfl h))
    | none =>
      have heq : togglePlayback story s = { s with isPlaying := true, isBuffering := true } := by
        simp only [togglePlayback, if_neg hp, hb]
      rw [heq]
      exact sourceInv_of_eq s _ rfl rfl h

theorem sourceInv_bufferReadyEffect (story : AudioStory) (s : PlayerState)
    (h : sourceInv s) : sourceInv (bufferReadyEffect story s) := by
  unfold bufferReadyEffect
  by_cases hc : s.isBuffering = true ∧ s.isPlaying = true ∧
      ((story.segments[s.currentSegmentIndex]?).bind StorySegment.audioBuffer).isSome
  · rw [if_pos hc]
    exact sourceInv_playSegment _ 0 _ (sourceInv_of_eq s _ rfl rfl h)
  · rw [if_neg hc]
    exact h

/-- C6: in any state obeying the single-source discipline at most one chunk
of decoded audio is playing, and every player operation — `stopAudio`,
`playSegment` (which stops the previous source before starting the new one),
`handleSegmentEnd`, `togglePlayback` and the buffer-ready effect — preserves
that discipline. -/
theorem player_single_source (segment : Option StorySegment) (offset : Int)
    (story : AudioStory) (bg : Bool) (s : PlayerState) (h : sourceInv s) :
    s.playing.length ≤ 1 ∧
    sourceInv (stopAudio s) ∧
    sourceInv (playSegment segment offset s) ∧
    sourceInv (handleSegmentEnd story bg s) ∧
    sourceInv (togglePlayback story s) ∧
    sourceInv (bufferReadyEffect story s) := by
  refine ⟨?_, sourceInv_stopAudio s h, sourceInv_playSegment segment offset s h,
    sourceInv_handleSegmentEnd story bg s h, sourceInv_togglePlayback story s h,
    sourceInv_bufferReadyEffect story s h⟩
  rcases h with h | ⟨src, _, h⟩ <;> simp [h]

/-- Witness for C6: the initial player state obeys the discipline, and a
play operation from it keeps the discipline. -/
theorem player_single_source_witness :
    bufferingState.playing.length ≤ 1 ∧
    sourceInv (playSegment (some readySegment) 0 bufferingState) :=
  ⟨(player_single_source (some readySegment) 0 sampleStory false bufferingState
      (Or.inl rfl)).1,
   (player_single_source (some readySegment) 0 sampleStory false bufferingState
      (Or.inl rfl)).2.2.1⟩

/-! Lemmas about the citation-collection fold of `generateSegment`. -/

theorem uri_mem_foldl_pushSource (cs : List GroundingChunk) (acc : List StorySource)
    (u : String) :
    u ∈ (cs.foldl pushSource acc).map StorySource.uri ↔
      u ∈ acc.map StorySource.uri ∨
        ∃ c ∈ cs, ∃ src, chunkSource c = some src ∧ src.uri = u := by
  induction cs generalizing acc with
  | nil => simp
  | cons c cs ih =>
    rw [List.foldl_cons, ih, List.exists_mem_cons_iff]
    cases hc : chunkSource c with
    | none =>
      simp only [pushSource, hc]
      constructor
      · rintro (h | h)
        · exact Or.inl h
        · exact Or.inr (Or.inr h)
      · rintro (h | ⟨src, hsrc, _⟩ | h)
        · exact Or.inl h
        · exact absurd hsrc (by simp)
        · exact Or.inr h
    | some src =>
      by_cases hin : acc.any (fun s => s.uri == src.uri) = true
      · have hmem : src.uri ∈ acc.map StorySource.uri := by
          rcases List.any_eq_true.mp hin with ⟨s, hsmem, hseq⟩
          rw [beq_iff_eq] at hseq
          exact List.mem_map.mpr ⟨s, hsmem, hseq⟩
        simp only [pushSource, hc, hin, if_true]
        constructor
        · rintro (h | h)
          · exact Or.inl h
          · exact Or.inr (Or.inr h)
        · rintro (h | ⟨src', hsrc', hu⟩ | h)
          · exact Or.inl h
          · cases hsrc'
            exact Or.inl (hu ▸ hmem)
          · exact Or.inr h
      · have hacc : pushSource acc c = acc ++ [src] := by
          simp only [pushSource, hc]
          rw [if_neg hin]
        rw [hacc, List.map_append]
        simp only [List.map_cons, List.map_nil, List.mem_append, List.mem_cons,
          List.not_mem_nil, or_false]
        constructor
        · rintro (((h | h) | h))
          · exact Or.inl h
          · exact Or.inr (Or.inl ⟨src, rfl, h.symm⟩)
          · exact Or.inr (Or.inr h)
        · rintro (h | ⟨src', hsrc', hu⟩ | h)
          · exact Or.inl (Or.inl h)
          · cases hsrc'
            exact Or.inl (Or.inr hu.symm)
          · exact Or.inr h

theorem nodup_map_uri_foldl_pushSource (cs : List GroundingChunk)
    (acc : List StorySource) (h : (acc.map StorySource.uri).Nodup) :
    ((cs.foldl pushSource acc).map StorySource.uri).Nodup := by
  induction cs generalizing acc with
  | nil => simpa using h
  | cons c cs ih =>
    rw [List.foldl_cons]
    apply ih
    cases hc : chunkSource c with
    | none =>
      simp only [pushSource, hc]
      exact h
    | some src =>
      by_cases hin : acc.any (fun s => s.uri == src.uri) = true
      · simp only [pushSource, hc, hin, if_true]
        exact h
      · have hacc : pushSource acc c = acc ++ [src] := by
          simp only [pushSource, hc]
          rw [if_neg hin]
        rw [hacc, List.map_append, List.nodup_append]
        refine ⟨h, by simp, ?_⟩
        intro a ha hb
        simp only [List.map_cons, List.map_nil, List.mem_cons, List.not_mem_nil,
          or_false] at hb
        subst hb
        rw [Bool.not_eq_true, List.any_eq_false] at hin
        rcases List.mem_map.mp ha with ⟨s, hsmem, hseq⟩
        exact hin s hsmem (by rw [beq_iff_eq]; exact hseq)

theorem mem_foldl_pushSource (cs : List GroundingChunk) (acc : List StorySource) :
    ∀ src ∈ cs.foldl pushSource acc, src ∈ acc ∨ ∃ c ∈ cs, chunkSource c = some src := by
  induction cs generalizing acc with
  | nil =>
    intro src h
    exact Or.inl (by simpa using h)
  | cons c cs ih =>
    intro src h
    rw [List.foldl_cons] at h
    rcases ih (pushSource acc c) src h with h' | ⟨c', hc', hcs⟩
    · cases hc : chunkSource c with
      | none =>
        simp only [pushSource, hc] at h'
        exact Or.inl h'
      | some s0 =>
        by_cases hin : acc.any (fun s => s.uri == s0.uri) = true
        · simp only [pushSource, hc, hin, if_true] at h'
          exact Or.inl h'
        · have hacc : pushSource acc c = acc ++ [s0] := by
            simp only [pushSource, hc]
            rw [if_neg hin]
          rw [hacc] at h'
          rcases List.mem_append.mp h' with h'' | h''
          · exact Or.inl h''
          · simp only [List.mem_cons, List.not_mem_nil, or_false] at h''
            subst h''
            exact Or.inr ⟨c, List.mem_cons_self c cs, hc⟩
    · exact Or.inr ⟨c', List.mem_cons_of_mem c hc', hcs⟩

theorem extractSources_ne_nil_iff (chunks : List GroundingChunk) :
    extractSources chunks ≠ [] ↔ ∃ c ∈ chunks, ∃ src, chunkSource c = some src := by
  constructor
  · intro hne
    rcases List.exists_mem_of_ne_nil _ hne with ⟨src, hmem⟩
    rcases mem_foldl_pushSource chunks [] src hmem with h | ⟨c, hcm, hcs⟩
    · exact absurd h (List.not_mem_nil src)
    · exact ⟨c, hcm, src, hcs⟩
  · rintro ⟨c, hcm, src, hcs⟩
    intro hnil
    have hmem : src.uri ∈ (extractSources chunks).map StorySource.uri :=
      (uri_mem_foldl_pushSource chunks [] src.uri).mpr
        (Or.inr ⟨c, hcm, src, hcs, rfl⟩)
    rw [hnil] at hmem
    exact absurd hmem (by simp)

/-- C7: the citation list of a segment returned by `generateSegment` has
pairwise-distinct URIs; a URI appears in it exactly when some grounding
chunk of the response carries it with a truthy web URI and title; every
entry comes from such a chunk; and the `sources` field is absent exactly
when no such chunk exists. -/
theorem generateSegment_sources_dedup (env : Env) (route : RouteDetails)
    (i n : Nat) (outline ctx : String) (resp : ModelResponse) (seg : StorySegment)
    (hc : env.generateContent (segmentRequest route) = .ok resp)
    (hs : generateSegment env route i n outline ctx = .ok seg) :
    ((¬ ∃ c ∈ resp.groundingChunks.getD [], ∃ src, chunkSource c = some src) →
        seg.sources = none) ∧
    ((∃ c ∈ resp.groundingChunks.getD [], ∃ src, chunkSource c = some src) →
        seg.sources = some (extractSources (resp.groundingChunks.getD []))) ∧
    (∀ l, seg.sources = some l →
      (l.map StorySource.uri).Nodup ∧
      (∀ u, u ∈ l.map StorySource.uri ↔
        ∃ c ∈ resp.groundingChunks.getD [], ∃ src, chunkSource c = some src ∧ src.uri = u) ∧
      (∀ src ∈ l, ∃ c ∈ resp.groundingChunks.getD [], chunkSource c = some src)) := by
  unfold generateSegment at hs
  simp only [hc] at hs
  cases ht : truthyStr (resp.text.map jsTrim) with
  | none =>
    simp [ht] at hs
  | some t =>
    simp only [ht, Except.ok.injEq] at hs
    have hsources : seg.sources =
        if 0 < (extractSources (resp.groundingChunks.getD [])).length
        then some (extractSources (resp.groundingChunks.getD []))
        else none := by
      rw [← hs]
    refine ⟨?_, ?_, ?_⟩
    · intro hno
      rw [hsources, if_neg]
      intro hpos
      exact hno ((extractSources_ne_nil_iff _).mp
        (List.ne_nil_of_length_pos hpos))
    · intro hyes
      rw [hsources, if_pos]
      exact List.length_pos.mpr ((extractSources_ne_nil_iff _).mpr hyes)
    · intro l hl
      rw [hsources] at hl
      by_cases hpos : 0 < (extractSources (resp.groundingChunks.getD [])).length
      · rw [if_pos hpos] at hl
        cases hl
        refine ⟨nodup_map_uri_foldl_pushSource _ [] (by simp), ?_, ?_⟩
        · intro u
          rw [extractSources, uri_mem_foldl_pushSource]
          simp
        · intro src hsrc
          rcases mem_foldl_pushSource _ [] src hsrc with h | h
          · exact absurd h (List.not_mem_nil src)
          · exact h
      · rw [if_neg hpos] at hl
        cases hl

/-- Witness for C7: the deduplicated citation list of a concretely generated
segment (three qualifying chunks, two sharing a URI, one chunk without web
data) has pairwise-distinct URIs. -/
theorem generateSegment_sources_dedup_witness :
    (c7sources.map StorySource.uri).Nodup :=
  (((generateSegment_sources_dedup c7env sampleRoute 1 3 "go" "" c7resp c7seg
      rfl rfl).2.2) c7sources rfl).1

end EchoPaths
